import Mathlib

/-!
# FlexTermEditor animation engine — verification development

Shallow embedding of the animation framework of `src/animations.py`,
`src/pop_animation.py` and `src/micro_animations.py`, together with
theorems settling the frozen behavioural claims about it.

Modelling conventions:
* Python floats are modelled as exact rationals (`ℚ`).
* `math.pow 2 e` and `math.sin (θ·π)` are transcendental; they are
  abstracted as oracle parameters `p2 : ℚ → ℚ` (modelling `2**e`) and
  `sinr : ℚ → ℚ` (modelling `sin (θ·π)` at argument `θ`).  Every claim
  settled here is independent of the oracles' values.
* `threading.Timer` scheduling is modelled by an explicit per-instance
  pool of pending timer identifiers: `schedule_next_frame` allocates a
  fresh identifier (monotone counter `nextTimerId`), appends it to
  `pendingTimers` and stores it in the `timer` attribute; `Timer.cancel`
  removes an identifier from the pool; a timer can fire (run `_advance`)
  only while its identifier is in the pool, and firing consumes it.
  Real-time delays (`duration / max_steps`) do not influence any claim
  and are not modelled; firing order is an arbitrary event sequence.
* A Python target object is a `TargetObj`: an attribute dictionary plus
  an observation log of every `setattr` performed on it.
-/

/-- Insertion/replacement into an association list, mirroring Python
`d[k] = v`: replaces the binding in place if the key is present,
otherwise appends it. -/
def dictSet {α : Type} (d : List (String × α)) (k : String) (v : α) :
    List (String × α) :=
  match d with
  | [] => [(k, v)]
  | (k', v') :: rest =>
      if k' = k then (k, v) :: rest else (k', v') :: dictSet rest k v

/-- Lookup in an association list, mirroring Python `d[k]` / `k in d`. -/
def dictGet {α : Type} (d : List (String × α)) (k : String) : Option α :=
  match d with
  | [] => none
  | (k', v) :: rest => if k' = k then some v else dictGet rest k

/-- In-place update of one list element, mirroring mutation of the
object a reference points to. -/
def listModify {α : Type} (l : List α) (i : ℕ) (f : α → α) : List α :=
  match l, i with
  | [], _ => []
  | x :: xs, 0 => f x :: xs
  | x :: xs, n + 1 => x :: listModify xs n f

/-- A Python target object: its attribute dictionary together with a log
of all attribute writes (the observable output of an animation run). -/
structure TargetObj where
  props : List (String × ℚ)
  writes : List (String × ℚ)
deriving DecidableEq

/-- Python `hasattr(target, name)`. -/
def TargetObj.hasattr (t : TargetObj) (name : String) : Bool :=
  (dictGet t.props name).isSome

/-- Python `setattr(target, name, v)`, also recording the write in the log. -/
def TargetObj.setattr (t : TargetObj) (name : String) (v : ℚ) : TargetObj :=
  { props := dictSet t.props name v, writes := t.writes ++ [(name, v)] }

/-- Python `getattr(target, name)`. -/
def TargetObj.getattr (t : TargetObj) (name : String) : Option ℚ :=
  dictGet t.props name

/-- The state of `animations.AnimationState` (src/animations.py, lines
9-17), plus the modelled timer runtime: `pendingTimers` is the pool of
scheduled, uncancelled, not-yet-fired `threading.Timer`s owned by this
instance and `nextTimerId` the fresh-identifier counter. -/
structure AnimationState where
  animating : Bool
  start_time : ℚ
  current_step : ℕ
  max_steps : ℕ
  duration : ℚ
  timer : Option ℕ
  pendingTimers : List ℕ
  nextTimerId : ℕ
deriving DecidableEq

/-- Python `AnimationState.__init__`: `animating=False`, `current_step=0`,
`max_steps=10`, `duration=0.3`, `timer=None`. -/
def AnimationState.init : AnimationState :=
  { animating := false, start_time := 0, current_step := 0, max_steps := 10,
    duration := 0.3, timer := none, pendingTimers := [], nextTimerId := 0 }

/-- Python `schedule_next_frame` (lines 33-41): if not animating, do nothing;
otherwise create and start a fresh timer and store it in `self.timer`.
The real code computes `step_duration = duration / max_steps` as the
delay; delays are not part of the event model. -/
def AnimationState.schedule_next_frame (a : AnimationState) : AnimationState :=
  if a.animating = false then a
  else
    { a with timer := some a.nextTimerId,
             pendingTimers := a.pendingTimers ++ [a.nextTimerId],
             nextTimerId := a.nextTimerId + 1 }

/-- Python `start` (lines 19-24): sets `animating=True`, `current_step=0`,
records `start_time = time.time()` (passed in as `now`), and schedules
the first frame.  Note: it does *not* cancel a previously pending
timer. -/
def AnimationState.start (now : ℚ) (a : AnimationState) : AnimationState :=
  AnimationState.schedule_next_frame
    { a with animating := true, current_step := 0, start_time := now }

/-- Python `stop` (lines 26-31): sets `animating=False`; if `self.timer` is
set, cancels it (removes it from the pending pool; cancelling an
already-fired timer is a no-op, matching `threading.Timer.cancel`) and
clears the attribute. -/
def AnimationState.stop (a : AnimationState) : AnimationState :=
  let a' := { a with animating := false }
  match a'.timer with
  | some tid =>
      { a' with pendingTimers := a'.pendingTimers.erase tid, timer := none }
  | none => a'

/-- Python `get_progress` (lines 67-71). -/
def AnimationState.get_progress (a : AnimationState) : ℚ :=
  if a.max_steps ≤ a.current_step then 1
  else (a.current_step : ℚ) / (a.max_steps : ℚ)

/-- The easing dispatch inside `get_eased_progress` (lines 77-113),
as a function of the already-computed `linear_progress`.  `p2 e` models
`math.pow(2, e)` and `sinr θ` models `math.sin(θ * math.pi)`; the
elastic branches pass `θ = (p*40 - 3)/6`, matching
`math.sin((p * 40 - 3) * math.pi / 6)`. -/
def easedProgressFrom (p2 sinr : ℚ → ℚ) (easing_function : String)
    (linear_progress : ℚ) : ℚ :=
  if easing_function = "linear" then linear_progress
  else if easing_function = "ease_in_quad" then
    linear_progress * linear_progress
  else if easing_function = "ease_out_quad" then
    -(linear_progress * (linear_progress - 2))
  else if easing_function = "ease_in_out_quad" then
    (let p := linear_progress * 2;
     if p < 1 then 0.5 * p * p
     else
       (let p' := p - 1;
        -0.5 * (p' * (p' - 2) - 1)))
  else if easing_function = "ease_out_bounce" then
    (if linear_progress < 1 / 2.75 then
       7.5625 * linear_progress * linear_progress
     else if linear_progress < 2 / 2.75 then
       (let p := linear_progress - 1.5 / 2.75;
        7.5625 * p * p + 0.75)
     else if linear_progress < 2.5 / 2.75 then
       (let p := linear_progress - 2.25 / 2.75;
        7.5625 * p * p + 0.9375)
     else
       (let p := linear_progress - 2.625 / 2.75;
        7.5625 * p * p + 0.984375))
  else if easing_function = "ease_in_elastic" then
    (if linear_progress = 0 ∨ linear_progress = 1 then linear_progress
     else
       (let p := linear_progress - 1;
        -(p2 (10 * p) * sinr ((p * 40 - 3) / 6))))
  else if easing_function = "ease_out_elastic" then
    (if linear_progress = 0 ∨ linear_progress = 1 then linear_progress
     else p2 (-10 * linear_progress) * sinr ((linear_progress * 40 - 3) / 6) + 1)
  else linear_progress

/-- Python `get_eased_progress` (lines 73-113). -/
def AnimationState.get_eased_progress (p2 sinr : ℚ → ℚ) (a : AnimationState)
    (easing_function : String) : ℚ :=
  easedProgressFrom p2 sinr easing_function a.get_progress

/-- Python `_advance` (lines 43-57), parametric in the subclass hooks.
`onFrame` is the subclass `on_frame` (it mutates only the external
state `x`, as every subclass in the repository does), `onComplete` the
(possibly wrapped) `on_complete`.  If the animation was stopped, the
guard returns immediately; otherwise the step counter is incremented,
completion is checked *before* any frame is emitted, and only a
non-completing tick invokes `on_frame` and reschedules. -/
def advanceWith {Ext : Type} (onFrame : AnimationState → Ext → Ext)
    (onComplete : AnimationState → Ext → AnimationState × Ext)
    (a : AnimationState) (x : Ext) : AnimationState × Ext :=
  if a.animating = false then (a, x)
  else
    let a' := { a with current_step := a.current_step + 1 }
    if a'.max_steps ≤ a'.current_step then onComplete a' x
    else (a'.schedule_next_frame, onFrame a' x)

/-- One firing of the pending timer `tid`: only a scheduled,
uncancelled, not-yet-fired timer can fire; firing consumes it and runs
`_advance`. -/
def fireWith {Ext : Type} (onFrame : AnimationState → Ext → Ext)
    (onComplete : AnimationState → Ext → AnimationState × Ext)
    (tid : ℕ) (a : AnimationState) (x : Ext) : AnimationState × Ext :=
  if tid ∈ a.pendingTimers then
    advanceWith onFrame onComplete
      { a with pendingTimers := a.pendingTimers.erase tid } x
  else (a, x)

/-- A sequence of timer firings. -/
def fireSeq {Ext : Type} (onFrame : AnimationState → Ext → Ext)
    (onComplete : AnimationState → Ext → AnimationState × Ext)
    (tids : List ℕ) (a : AnimationState) (x : Ext) : AnimationState × Ext :=
  tids.foldl (fun s tid => fireWith onFrame onComplete tid s.1 s.2) (a, x)

/-- The base-class `on_complete` (lines 63-65): sets `animating=False`. -/
def defaultOnComplete {Ext : Type} (a : AnimationState) (x : Ext) :
    AnimationState × Ext :=
  ({ a with animating := false }, x)

/-- A firing of the bare base class (`on_frame` is a pass). -/
def AnimationState.fire (tid : ℕ) (a : AnimationState) : AnimationState :=
  (fireWith (fun _ (x : Unit) => x) defaultOnComplete tid a ()).1

/-- Python `animations.FadeAnimation` (lines 116-137): base state plus the
interpolation parameters (`float(start_value)` / `float(end_value)`
conversions are identities on `ℚ`).  The target object is external
(Python holds a reference `target_object`); the `on_update` callbacks
used in the repository only request a UI redraw and are not modelled. -/
structure FadeAnimation extends AnimationState where
  property_name : String
  start_value : ℚ
  end_value : ℚ
deriving DecidableEq

/-- Python `FadeAnimation.__init__`. -/
def FadeAnimation.make (property_name : String) (start_value end_value : ℚ) :
    FadeAnimation :=
  { toAnimationState := AnimationState.init, property_name := property_name,
    start_value := start_value, end_value := end_value }

/-- Python `FadeAnimation.on_frame` (lines 126-137): interpolates with the
hard-coded easing `"ease_out_quad"` and writes the target property if
the target has it. -/
def FadeAnimation.on_frame (p2 sinr : ℚ → ℚ) (f : FadeAnimation)
    (t : TargetObj) : TargetObj :=
  let progress := f.toAnimationState.get_eased_progress p2 sinr "ease_out_quad"
  let current_value := f.start_value + (f.end_value - f.start_value) * progress
  if t.hasattr f.property_name then t.setattr f.property_name current_value
  else t

/-- Python `start` inherited from the base class. -/
def FadeAnimation.start (now : ℚ) (f : FadeAnimation) : FadeAnimation :=
  { f with toAnimationState := f.toAnimationState.start now }

/-- Python `stop` inherited from the base class. -/
def FadeAnimation.stop (f : FadeAnimation) : FadeAnimation :=
  { f with toAnimationState := f.toAnimationState.stop }

/-- One timer firing of a `FadeAnimation` (virtual dispatch of
`_advance` with the subclass `on_frame` and the base `on_complete`). -/
def FadeAnimation.fire (p2 sinr : ℚ → ℚ) (tid : ℕ) (f : FadeAnimation)
    (t : TargetObj) : FadeAnimation × TargetObj :=
  let r := fireWith
    (fun a t' => FadeAnimation.on_frame p2 sinr { f with toAnimationState := a } t')
    defaultOnComplete tid f.toAnimationState t
  ({ f with toAnimationState := r.1 }, r.2)

/-- Python `animations.ScaleAnimation` (lines 164-185). -/
structure ScaleAnimation extends AnimationState where
  property_name : String
  start_scale : ℚ
  end_scale : ℚ
deriving DecidableEq

/-- Python `ScaleAnimation.__init__`. -/
def ScaleAnimation.make (property_name : String) (start_scale end_scale : ℚ) :
    ScaleAnimation :=
  { toAnimationState := AnimationState.init, property_name := property_name,
    start_scale := start_scale, end_scale := end_scale }

/-- Python `ScaleAnimation.on_frame` (lines 174-185): interpolates with the
hard-coded easing `"ease_out_elastic"`. -/
def ScaleAnimation.on_frame (p2 sinr : ℚ → ℚ) (s : ScaleAnimation)
    (t : TargetObj) : TargetObj :=
  let progress := s.toAnimationState.get_eased_progress p2 sinr "ease_out_elastic"
  let current_scale := s.start_scale + (s.end_scale - s.start_scale) * progress
  if t.hasattr s.property_name then t.setattr s.property_name current_scale
  else t

/-- Python `start` inherited from the base class. -/
def ScaleAnimation.start (now : ℚ) (s : ScaleAnimation) : ScaleAnimation :=
  { s with toAnimationState := s.toAnimationState.start now }

/-- Python `stop` inherited from the base class. -/
def ScaleAnimation.stop (s : ScaleAnimation) : ScaleAnimation :=
  { s with toAnimationState := s.toAnimationState.stop }

/-- One timer firing of a `ScaleAnimation`. -/
def ScaleAnimation.fire (p2 sinr : ℚ → ℚ) (tid : ℕ) (s : ScaleAnimation)
    (t : TargetObj) : ScaleAnimation × TargetObj :=
  let r := fireWith
    (fun a t' => ScaleAnimation.on_frame p2 sinr { s with toAnimationState := a } t')
    defaultOnComplete tid s.toAnimationState t
  ({ s with toAnimationState := r.1 }, r.2)

/-- Python `animations.BlinkAnimation` (lines 188-209). -/
structure BlinkAnimation extends AnimationState where
  property_name : String
  blink_count : ℕ
deriving DecidableEq

/-- Python `BlinkAnimation.__init__`: sets `max_steps = blink_count * 2`. -/
def BlinkAnimation.make (property_name : String) (blink_count : ℕ) :
    BlinkAnimation :=
  { toAnimationState :=
      { AnimationState.init with max_steps := blink_count * 2 },
    property_name := property_name, blink_count := blink_count }

/-- Python `BlinkAnimation.on_frame` (lines 198-209): writes `1` if
`current_step` is even, else `0`. -/
def BlinkAnimation.on_frame (b : BlinkAnimation) (t : TargetObj) : TargetObj :=
  let value : ℚ := if b.toAnimationState.current_step % 2 = 0 then 1 else 0
  if t.hasattr b.property_name then t.setattr b.property_name value
  else t

/-- Python `start` inherited from the base class. -/
def BlinkAnimation.start (now : ℚ) (b : BlinkAnimation) : BlinkAnimation :=
  { b with toAnimationState := b.toAnimationState.start now }

/-- One timer firing of a `BlinkAnimation`. -/
def BlinkAnimation.fire (tid : ℕ) (b : BlinkAnimation) (t : TargetObj) :
    BlinkAnimation × TargetObj :=
  let r := fireWith
    (fun a t' => BlinkAnimation.on_frame { b with toAnimationState := a } t')
    defaultOnComplete tid b.toAnimationState t
  ({ b with toAnimationState := r.1 }, r.2)

/-- Run a `FadeAnimation` through a sequence of timer firings. -/
def runFade (p2 sinr : ℚ → ℚ) (s : FadeAnimation × TargetObj)
    (tids : List ℕ) : FadeAnimation × TargetObj :=
  tids.foldl (fun s' tid => FadeAnimation.fire p2 sinr tid s'.1 s'.2) s

/-- Run a `BlinkAnimation` through a sequence of timer firings. -/
def runBlink (s : BlinkAnimation × TargetObj) (tids : List ℕ) :
    BlinkAnimation × TargetObj :=
  tids.foldl (fun s' tid => BlinkAnimation.fire tid s'.1 s'.2) s

/-- C7: for each of the seven recognized easing kinds, the easing
function maps linear progress 0 to exactly 0 and linear progress 1 to
exactly 1, whatever the values of the transcendental oracles. -/
theorem easing_endpoints (p2 sinr : ℚ → ℚ) :
    (easedProgressFrom p2 sinr "linear" 0 = 0 ∧
     easedProgressFrom p2 sinr "linear" 1 = 1) ∧
    (easedProgressFrom p2 sinr "ease_in_quad" 0 = 0 ∧
     easedProgressFrom p2 sinr "ease_in_quad" 1 = 1) ∧
    (easedProgressFrom p2 sinr "ease_out_quad" 0 = 0 ∧
     easedProgressFrom p2 sinr "ease_out_quad" 1 = 1) ∧
    (easedProgressFrom p2 sinr "ease_in_out_quad" 0 = 0 ∧
     easedProgressFrom p2 sinr "ease_in_out_quad" 1 = 1) ∧
    (easedProgressFrom p2 sinr "ease_out_bounce" 0 = 0 ∧
     easedProgressFrom p2 sinr "ease_out_bounce" 1 = 1) ∧
    (easedProgressFrom p2 sinr "ease_in_elastic" 0 = 0 ∧
     easedProgressFrom p2 sinr "ease_in_elastic" 1 = 1) ∧
    (easedProgressFrom p2 sinr "ease_out_elastic" 0 = 0 ∧
     easedProgressFrom p2 sinr "ease_out_elastic" 1 = 1) := by
  refine ⟨⟨?_, ?_⟩, ⟨?_, ?_⟩, ⟨?_, ?_⟩, ⟨?_, ?_⟩, ⟨?_, ?_⟩, ⟨?_, ?_⟩, ⟨?_, ?_⟩⟩ <;>
    norm_num +decide [easedProgressFrom]

/-- C8: an easing-name string that is none of the seven recognized
kinds falls through every branch of `get_eased_progress` and returns
the unmodified linear progress; in particular the search-navigation
recipe's `"elastic_out"` resolves to linear progress. -/
theorem easing_unknown_fallback (p2 sinr : ℚ → ℚ) (name : String)
    (lp : ℚ)
    (h : name ∉ ["linear", "ease_in_quad", "ease_out_quad",
        "ease_in_out_quad", "ease_out_bounce", "ease_in_elastic",
        "ease_out_elastic"]) :
    easedProgressFrom p2 sinr name lp = lp ∧
    (∀ a : AnimationState,
      a.get_eased_progress p2 sinr "elastic_out" = a.get_progress) := by
  simp only [List.mem_cons, List.not_mem_nil, or_false, not_or] at h
  obtain ⟨h1, h2, h3, h4, h5, h6, h7⟩ := h
  constructor
  · simp [easedProgressFrom, h1, h2, h3, h4, h5, h6, h7]
  · intro a
    simp [AnimationState.get_eased_progress, easedProgressFrom]

/-- Witness for `easing_unknown_fallback` at the concrete unknown name
`"elastic_out"` and linear progress `1/2`. -/
theorem easing_unknown_fallback_witness :
    easedProgressFrom (fun _ => 0) (fun _ => 0) "elastic_out" (1/2) = 1/2 :=
  (easing_unknown_fallback (fun _ => 0) (fun _ => 0) "elastic_out" (1/2)
    (by decide)).1

/-- The canonical completion run of
`FadeAnimation(target, "opacity", 0.0, 1.0)` (defaults `duration=0.3`,
`max_steps=10`): started once, then every scheduled tick fires in
order until `current_step` reaches `max_steps`. -/
def fadeCompletionRun : FadeAnimation × TargetObj :=
  runFade (fun _ => 0) (fun _ => 0)
    ((FadeAnimation.make "opacity" 0 1).start 0,
     ⟨[("opacity", 0)], []⟩) [0, 1, 2, 3, 4, 5, 6, 7, 8, 9]

set_option maxHeartbeats 1000000 in
/-- C5 counterexample: running `FadeAnimation(target, "opacity", 0.0,
1.0)` (defaults `duration=0.3`, `max_steps=10`) to completion — the 10
scheduled ticks, until `current_step` reaches `max_steps` — does *not*
leave `target.opacity` equal to `1.0`. -/
theorem fade_completion_not_one :
    fadeCompletionRun.2.getattr "opacity" ≠ some 1 ∧
    fadeCompletionRun.1.toAnimationState.current_step = 10 := by
  constructor
  ·  norm_num +decide [fadeCompletionRun, runFade, FadeAnimation.fire, FadeAnimation.make,
      FadeAnimation.start, AnimationState.start, AnimationState.init,
      AnimationState.schedule_next_frame, fireWith, advanceWith,
      FadeAnimation.on_frame, AnimationState.get_eased_progress,
      AnimationState.get_progress, easedProgressFrom, TargetObj.hasattr,
      TargetObj.setattr, TargetObj.getattr, defaultOnComplete, dictGet,
      dictSet, List.foldl]
  ·  norm_num +decide [fadeCompletionRun, runFade, FadeAnimation.fire, FadeAnimation.make,
      FadeAnimation.start, AnimationState.start, AnimationState.init,
      AnimationState.schedule_next_frame, fireWith, advanceWith,
      FadeAnimation.on_frame, AnimationState.get_eased_progress,
      AnimationState.get_progress, easedProgressFrom, TargetObj.hasattr,
      TargetObj.setattr, TargetObj.getattr, defaultOnComplete, dictGet,
      dictSet, List.foldl]

set_option maxHeartbeats 1000000 in
/-- C5 amended: the same completion run leaves `animating = False`,
but `target.opacity = 99/100`, the `"ease_out_quad"`-eased
interpolation at step 9: the completing tick (the one that takes
`current_step` to `max_steps`) invokes `on_complete` without a final
`on_frame`, so the end value `1.0` is never written. -/
theorem fade_completion_result :
    fadeCompletionRun.2.getattr "opacity" = some (99/100) ∧
    fadeCompletionRun.1.toAnimationState.animating = false := by
  constructor
  ·  norm_num +decide [fadeCompletionRun, runFade, FadeAnimation.fire, FadeAnimation.make,
      FadeAnimation.start, AnimationState.start, AnimationState.init,
      AnimationState.schedule_next_frame, fireWith, advanceWith,
      FadeAnimation.on_frame, AnimationState.get_eased_progress,
      AnimationState.get_progress, easedProgressFrom, TargetObj.hasattr,
      TargetObj.setattr, TargetObj.getattr, defaultOnComplete, dictGet,
      dictSet, List.foldl]
  ·  norm_num +decide [fadeCompletionRun, runFade, FadeAnimation.fire, FadeAnimation.make,
      FadeAnimation.start, AnimationState.start, AnimationState.init,
      AnimationState.schedule_next_frame, fireWith, advanceWith,
      FadeAnimation.on_frame, AnimationState.get_eased_progress,
      AnimationState.get_progress, easedProgressFrom, TargetObj.hasattr,
      TargetObj.setattr, TargetObj.getattr, defaultOnComplete, dictGet,
      dictSet, List.foldl]

/-- The canonical completion run of `BlinkAnimation(target, "visible",
blink_count=3)`: started once, then every scheduled tick fires in order
until completion. -/
def blinkCompletionRun : BlinkAnimation × TargetObj :=
  runBlink ((BlinkAnimation.make "visible" 3).start 0,
    ⟨[("visible", 0)], []⟩) [0, 1, 2, 3, 4, 5]

set_option maxHeartbeats 1000000 in
/-- C6 counterexample: for `BlinkAnimation` with `blink_count = 3`
(`max_steps = 6`), the sequence of values written to the property
across the ticks from start to completion is *not* `[1,0,1,0,1,0]`. -/
theorem blink_sequence_not_claimed :
    (blinkCompletionRun.2.writes.map Prod.snd) ≠ [1, 0, 1, 0, 1, 0] := by
  norm_num +decide [blinkCompletionRun, runBlink, BlinkAnimation.fire, BlinkAnimation.make,
      BlinkAnimation.start, BlinkAnimation.on_frame, AnimationState.start, AnimationState.init,
      AnimationState.schedule_next_frame, fireWith, advanceWith, TargetObj.hasattr,
      TargetObj.setattr, TargetObj.getattr, defaultOnComplete, dictGet,
      dictSet, List.foldl]

set_option maxHeartbeats 1000000 in
/-- C6 amended: `BlinkAnimation(blink_count=3)` has `max_steps = 6`,
and the run completes after the 6th tick (`animating = False`, no
further timer scheduled); but `on_frame` only runs on the five
non-completing ticks (steps 1..5), writing `1` on even steps and `0`
on odd ones, so the written sequence is `[0,1,0,1,0]` — the completing
sixth tick writes nothing. -/
theorem blink_sequence_result :
    (BlinkAnimation.make "visible" 3).toAnimationState.max_steps = 6 ∧
    (blinkCompletionRun.2.writes.map Prod.snd) = [0, 1, 0, 1, 0] ∧
    blinkCompletionRun.1.toAnimationState.animating = false ∧
    blinkCompletionRun.1.toAnimationState.pendingTimers = [] := by
  refine ⟨rfl, ?_, ?_, ?_⟩
  ·  norm_num +decide [blinkCompletionRun, runBlink, BlinkAnimation.fire, BlinkAnimation.make,
      BlinkAnimation.start, BlinkAnimation.on_frame, AnimationState.start, AnimationState.init,
      AnimationState.schedule_next_frame, fireWith, advanceWith, TargetObj.hasattr,
      TargetObj.setattr, TargetObj.getattr, defaultOnComplete, dictGet,
      dictSet, List.foldl]
  ·  norm_num +decide [blinkCompletionRun, runBlink, BlinkAnimation.fire, BlinkAnimation.make,
      BlinkAnimation.start, BlinkAnimation.on_frame, AnimationState.start, AnimationState.init,
      AnimationState.schedule_next_frame, fireWith, advanceWith, TargetObj.hasattr,
      TargetObj.setattr, TargetObj.getattr, defaultOnComplete, dictGet,
      dictSet, List.foldl]
  ·  norm_num +decide [blinkCompletionRun, runBlink, BlinkAnimation.fire, BlinkAnimation.make,
      BlinkAnimation.start, BlinkAnimation.on_frame, AnimationState.start, AnimationState.init,
      AnimationState.schedule_next_frame, fireWith, advanceWith, TargetObj.hasattr,
      TargetObj.setattr, TargetObj.getattr, defaultOnComplete, dictGet,
      dictSet, List.foldl]

/-- Helper: firing any timer of a non-animating animation changes no
external state, invokes no hook, and leaves the animation non-animating
(it can only consume the fired timer from the pending pool). -/
theorem fireWith_not_animating {Ext : Type}
    (onFrame : AnimationState → Ext → Ext)
    (onComplete : AnimationState → Ext → AnimationState × Ext)
    (tid : ℕ) (a : AnimationState) (x : Ext) (h : a.animating = false) :
    (fireWith onFrame onComplete tid a x).2 = x ∧
    (fireWith onFrame onComplete tid a x).1.animating = false := by
  unfold fireWith advanceWith
  split <;> simp [h]

/-- Helper: a whole sequence of timer firings of a non-animating
animation changes no external state and never re-animates it. -/
theorem fireSeq_not_animating {Ext : Type}
    (onFrame : AnimationState → Ext → Ext)
    (onComplete : AnimationState → Ext → AnimationState × Ext)
    (tids : List ℕ) (a : AnimationState) (x : Ext) (h : a.animating = false) :
    (fireSeq onFrame onComplete tids a x).2 = x ∧
    (fireSeq onFrame onComplete tids a x).1.animating = false := by
  induction tids generalizing a x with
  | nil => exact ⟨rfl, h⟩
  | cons tid rest ih =>
      have h1 := fireWith_not_animating onFrame onComplete tid a x h
      simp only [fireSeq, List.foldl_cons]
      rcases hfw : fireWith onFrame onComplete tid a x with ⟨a', x'⟩
      rw [hfw] at h1
      obtain ⟨hx', ha'⟩ := h1
      simp only at hx' ha'
      rw [hx']
      have h2 := ih a' x ha'
      simpa [fireSeq] using h2

/-- C4: after `stop()` the animation is not animating; any sequence of
subsequently firing ticks observes the `animating` guard in `_advance`
and neither invokes `on_frame`/`on_complete` nor mutates any external
state; and `stop()` on a non-animating animation with no stored timer
handle is a no-op (`stop` is total — it never raises). -/
theorem stop_halts_ticks {Ext : Type}
    (onFrame : AnimationState → Ext → Ext)
    (onComplete : AnimationState → Ext → AnimationState × Ext)
    (tids : List ℕ) (a : AnimationState) (x : Ext) :
    a.stop.animating = false ∧
    (fireSeq onFrame onComplete tids a.stop x).2 = x ∧
    (fireSeq onFrame onComplete tids a.stop x).1.animating = false ∧
    (a.animating = false → a.timer = none → a.stop = a) := by
  have hstop : a.stop.animating = false := by
    unfold AnimationState.stop
    cases a.timer <;> simp
  have hseq := fireSeq_not_animating onFrame onComplete tids a.stop x hstop
  refine ⟨hstop, hseq.1, hseq.2, fun ha ht => ?_⟩
  unfold AnimationState.stop
  rw [ht]
  cases a
  simp_all

/-- Witness for `stop_halts_ticks`: the freshly initialized animation
is not animating and has no timer handle, and stopping it twice in a
row is a no-op both times. -/
theorem stop_halts_ticks_witness :
    AnimationState.init.stop.animating = false ∧
    AnimationState.init.stop = AnimationState.init :=
  ⟨(stop_halts_ticks (fun _ (x : Unit) => x) defaultOnComplete []
      AnimationState.init ()).1,
   (stop_halts_ticks (fun _ (x : Unit) => x) defaultOnComplete []
      AnimationState.init ()).2.2.2 rfl rfl⟩

/-- C1 counterexample: calling `start()` twice on a fresh animation —
the second call while the first frame's timer is still pending — does
not cancel the in-flight timer: timer `0` is still pending afterwards
and two timers are pending simultaneously, violating the claimed
at-most-one-pending-timer invariant. -/
theorem double_start_leaks_timer :
    ((AnimationState.init.start 0).start 1).pendingTimers = [0, 1] ∧
    0 ∈ ((AnimationState.init.start 0).start 1).pendingTimers ∧
    ((AnimationState.init.start 0).start 1).pendingTimers.length = 2 := by
  refine ⟨?_, ?_, ?_⟩ <;>
    simp [AnimationState.start, AnimationState.init,
      AnimationState.schedule_next_frame]

/-- C1 amended: `start()` resets `current_step` to 0, records
`start_time`, sets `animating`, and schedules a new first frame — but
it does not cancel an in-flight pending timer: any previously pending
timer remains pending next to the newly scheduled one, so after a
second `start()` at least two timers are pending for the same
instance. -/
theorem start_keeps_inflight_timer (a : AnimationState) (now : ℚ)
    (tid : ℕ) (hpend : tid ∈ a.pendingTimers)
    (hfresh : ∀ x ∈ a.pendingTimers, x < a.nextTimerId) :
    (a.start now).current_step = 0 ∧
    (a.start now).animating = true ∧
    (a.start now).start_time = now ∧
    tid ∈ (a.start now).pendingTimers ∧
    a.nextTimerId ∈ (a.start now).pendingTimers ∧
    tid ≠ a.nextTimerId ∧
    2 ≤ (a.start now).pendingTimers.length := by
  have hne : tid ≠ a.nextTimerId := ne_of_lt (hfresh tid hpend)
  have hlen : 1 ≤ a.pendingTimers.length :=
    List.length_pos.mpr (List.ne_nil_of_mem hpend)
  have hstart : a.start now =
      { a with
          animating := true
          current_step := 0
          start_time := now
          timer := some a.nextTimerId
          pendingTimers := a.pendingTimers ++ [a.nextTimerId]
          nextTimerId := a.nextTimerId + 1 } := by
    unfold AnimationState.start AnimationState.schedule_next_frame
    simp
  rw [hstart]
  refine ⟨rfl, rfl, rfl, ?_, ?_, hne, ?_⟩
  · exact List.mem_append_left _ hpend
  · exact List.mem_append_right _ (by simp)
  · simp only [List.length_append, List.length_singleton]
    omega

/-- Witness for `start_keeps_inflight_timer`: a freshly started
animation has timer `0` pending and fresh counter `1`; restarting it
keeps timer `0` pending alongside the new timer `1`. -/
theorem start_keeps_inflight_timer_witness :
    (((AnimationState.init.start 0).start 1).current_step = 0 ∧
     ((AnimationState.init.start 0).start 1).animating = true ∧
     ((AnimationState.init.start 0).start 1).start_time = 1 ∧
     0 ∈ ((AnimationState.init.start 0).start 1).pendingTimers ∧
     (AnimationState.init.start 0).nextTimerId ∈
       ((AnimationState.init.start 0).start 1).pendingTimers ∧
     0 ≠ (AnimationState.init.start 0).nextTimerId ∧
     2 ≤ ((AnimationState.init.start 0).start 1).pendingTimers.length) :=
  start_keeps_inflight_timer (AnimationState.init.start 0) 1 0
    (by simp [AnimationState.start, AnimationState.init,
      AnimationState.schedule_next_frame])
    (by simp [AnimationState.start, AnimationState.init,
      AnimationState.schedule_next_frame])

/-- Python `animations.AnimationManager` (lines 212-247): a dict from names to
animation objects.  Objects are modelled by references (indices) into an
external heap, since Python stores references and two names may alias
one object. -/
structure AnimationManager where
  animations : List (String × ℕ)
deriving DecidableEq

/-- A manager together with the heap of animation objects its
references point into (base-class instances suffice for the replacement
claim). -/
structure ManagerSys where
  manager : AnimationManager
  heap : List AnimationState
deriving DecidableEq

/-- Python `add_animation` (lines 217-220): `self.animations[name] = animation`.
Nothing else happens — in particular the previously registered
animation is not stopped. -/
def ManagerSys.add_animation (sys : ManagerSys) (name : String) (ref : ℕ) :
    ManagerSys :=
  { sys with manager := ⟨dictSet sys.manager.animations name ref⟩ }

/-- Python `start_animation` (lines 222-227): looks the name up and calls
`start()` on the registered animation; returns whether the name was
found. -/
def ManagerSys.start_animation (now : ℚ) (sys : ManagerSys) (name : String) :
    ManagerSys × Bool :=
  match dictGet sys.manager.animations name with
  | some r =>
      ({ sys with heap := listModify sys.heap r (AnimationState.start now) },
       true)
  | none => (sys, false)

/-- Python `stop_animation` (lines 229-234). -/
def ManagerSys.stop_animation (sys : ManagerSys) (name : String) :
    ManagerSys × Bool :=
  match dictGet sys.manager.animations name with
  | some r =>
      ({ sys with heap := listModify sys.heap r AnimationState.stop }, true)
  | none => (sys, false)

/-- C2 counterexample: register a live animation `A` (started, with a
pending timer) under `"k"`, then register `B` under the same key.  `A`
is *not* stopped before being discarded from the registry: it is still
`animating` and its timer is still pending afterwards. -/
theorem add_animation_does_not_stop_old :
    (((ManagerSys.mk ⟨[]⟩ [AnimationState.init.start 0, AnimationState.init]
        ).add_animation "k" 0).add_animation "k" 1).heap.head? =
      some (AnimationState.init.start 0) ∧
    (AnimationState.init.start 0).animating = true ∧
    (AnimationState.init.start 0).pendingTimers = [0] := by
  refine ⟨rfl, ?_, ?_⟩ <;>
    simp [AnimationState.start, AnimationState.init,
      AnimationState.schedule_next_frame]

/-- C2 amended: after `add(key, A); add(key, B)` the registry maps the
key to `B` only, and a subsequent `start(key)` starts (and a later tick
advances) only `B` — but `A` is left completely untouched by the
replacement: if it was live, it stays animating with its timer pending
(the old timer is not cancelled). -/
theorem add_animation_replaces (A B : AnimationState) (now : ℚ) :
    ((((ManagerSys.mk ⟨[]⟩ [A, B]).add_animation "k" 0).add_animation "k" 1
      ).manager.animations) = [("k", 1)] ∧
    ((((ManagerSys.mk ⟨[]⟩ [A, B]).add_animation "k" 0).add_animation "k" 1
      ).heap) = [A, B] ∧
    ((((ManagerSys.mk ⟨[]⟩ [A, B]).add_animation "k" 0).add_animation "k" 1
      ).start_animation now "k").1.heap = [A, B.start now] := by
  refine ⟨?_, ?_, ?_⟩ <;>
    simp [ManagerSys.add_animation, ManagerSys.start_animation, dictSet,
      dictGet, listModify]

/-- Python `pop_animation.PopInAnimation.__init__` (lines 8-35).  The target
object is external; `on_update` callbacks only request redraws and the
`animation_lock` serializes the methods, which the atomic event
semantics already provides.  Defaults: `start_scale=1.1`,
`end_scale=1.0`, `duration=0.3`, `easing='ease_out_quad'`. -/
structure PopInAnimation where
  opacity_property : String
  scale_property : String
  start_scale : ℚ
  end_scale : ℚ
  duration : ℚ
  easing : String
  fade_animation : Option FadeAnimation
  scale_animation : Option ScaleAnimation
deriving DecidableEq

/-- Python `PopInAnimation.__init__`: both child animations start out `None`. -/
def PopInAnimation.make (opacity_property scale_property : String)
    (start_scale end_scale duration : ℚ) (easing : String) : PopInAnimation :=
  { opacity_property := opacity_property, scale_property := scale_property,
    start_scale := start_scale, end_scale := end_scale, duration := duration,
    easing := easing, fade_animation := none, scale_animation := none }

/-- Python `PopInAnimation.create_animations` (lines 37-60): a fresh
`FadeAnimation(target, opacity_property, 0.0, 1.0)` with
`duration = self.duration` and a fresh
`ScaleAnimation(target, scale_property, start_scale, end_scale)` with
`duration = self.duration * 0.8`. -/
def PopInAnimation.create_animations (p : PopInAnimation) : PopInAnimation :=
  let fade := FadeAnimation.make p.opacity_property 0 1
  let fade := { fade with toAnimationState :=
    { fade.toAnimationState with duration := p.duration } }
  let scale := ScaleAnimation.make p.scale_property p.start_scale p.end_scale
  let scale := { scale with toAnimationState :=
    { scale.toAnimationState with duration := p.duration * 0.8 } }
  { p with fade_animation := some fade, scale_animation := some scale }

/-- Python `PopInAnimation.start` (lines 62-76): creates the children if
either is still `None`, force-writes `opacity := 0.0` and
`scale := 1.1` (the literal `1.1`, not `start_scale`), then starts both
children. -/
def PopInAnimation.start (now : ℚ) (p : PopInAnimation) (t : TargetObj) :
    PopInAnimation × TargetObj :=
  let p := if p.fade_animation.isNone || p.scale_animation.isNone then
    p.create_animations else p
  let t := if t.hasattr p.opacity_property then
    t.setattr p.opacity_property 0 else t
  let t := if t.hasattr p.scale_property then
    t.setattr p.scale_property 1.1 else t
  ({ p with fade_animation := p.fade_animation.map (FadeAnimation.start now),
            scale_animation := p.scale_animation.map (ScaleAnimation.start now) },
   t)

/-- Python `pop_animation.PopOutAnimation.__init__` (lines 87-116).
`has_on_complete` records whether the caller supplied an `on_complete`
callback (the wrapper tests `if self.on_complete:` at completion time).
Defaults: `start_scale=1.0`, `end_scale=0.9`, `duration=0.25`,
`easing='ease_in_quad'`. -/
structure PopOutAnimation where
  opacity_property : String
  scale_property : String
  has_on_complete : Bool
  start_scale : ℚ
  end_scale : ℚ
  duration : ℚ
  easing : String
  fade_animation : Option FadeAnimation
  scale_animation : Option ScaleAnimation
deriving DecidableEq

/-- Python `PopOutAnimation.__init__`. -/
def PopOutAnimation.make (opacity_property scale_property : String)
    (has_on_complete : Bool) (start_scale end_scale duration : ℚ)
    (easing : String) : PopOutAnimation :=
  { opacity_property := opacity_property, scale_property := scale_property,
    has_on_complete := has_on_complete, start_scale := start_scale,
    end_scale := end_scale, duration := duration, easing := easing,
    fade_animation := none, scale_animation := none }

/-- Python `PopOutAnimation.create_animations` (lines 118-150): a fresh
`FadeAnimation(target, opacity_property, 1.0, 0.0)` with
`duration = self.duration` and a fresh `ScaleAnimation` with
`duration = self.duration * 0.7`; the fade's `on_complete` is replaced
by `completion_wrapper`, which closes over the *freshly created*
fade's original (base-class) `on_complete` and calls it before the
caller's callback — so wrappers never nest, even across repeated
`create_animations` calls. -/
def PopOutAnimation.create_animations (p : PopOutAnimation) : PopOutAnimation :=
  let fade := FadeAnimation.make p.opacity_property 1 0
  let fade := { fade with toAnimationState :=
    { fade.toAnimationState with duration := p.duration } }
  let scale := ScaleAnimation.make p.scale_property p.start_scale p.end_scale
  let scale := { scale with toAnimationState :=
    { scale.toAnimationState with duration := p.duration * 0.7 } }
  { p with fade_animation := some fade, scale_animation := some scale }

/-- Python `PopOutAnimation.start` (lines 152-166): creates the children if
either is still `None`, force-writes `opacity := 1.0` and
`scale := 1.0`, then starts both children. -/
def PopOutAnimation.start (now : ℚ) (p : PopOutAnimation) (t : TargetObj) :
    PopOutAnimation × TargetObj :=
  let p := if p.fade_animation.isNone || p.scale_animation.isNone then
    p.create_animations else p
  let t := if t.hasattr p.opacity_property then
    t.setattr p.opacity_property 1 else t
  let t := if t.hasattr p.scale_property then
    t.setattr p.scale_property 1 else t
  ({ p with fade_animation := p.fade_animation.map (FadeAnimation.start now),
            scale_animation := p.scale_animation.map (ScaleAnimation.start now) },
   t)

/-- An event against a running pop animation: a `start()` call, or the
firing of one pending timer of the fade child or of the scale child. -/
inductive PopEvent where
  | startEv (now : ℚ)
  | fireFade (tid : ℕ)
  | fireScale (tid : ℕ)
deriving DecidableEq

/-- A running `PopInAnimation` with its shared target object. -/
structure PopInRun where
  popin : PopInAnimation
  target : TargetObj
deriving DecidableEq

/-- One event step of a `PopInAnimation` run. -/
def PopInRun.step (p2 sinr : ℚ → ℚ) (r : PopInRun) (e : PopEvent) : PopInRun :=
  match e with
  | .startEv now =>
      let s := r.popin.start now r.target
      ⟨s.1, s.2⟩
  | .fireFade tid =>
      match r.popin.fade_animation with
      | none => r
      | some f =>
          let s := FadeAnimation.fire p2 sinr tid f r.target
          ⟨{ r.popin with fade_animation := some s.1 }, s.2⟩
  | .fireScale tid =>
      match r.popin.scale_animation with
      | none => r
      | some sc =>
          let s := ScaleAnimation.fire p2 sinr tid sc r.target
          ⟨{ r.popin with scale_animation := some s.1 }, s.2⟩

/-- A `PopInAnimation` run over a list of events. -/
def PopInRun.run (p2 sinr : ℚ → ℚ) (r : PopInRun) (evs : List PopEvent) :
    PopInRun :=
  evs.foldl (PopInRun.step p2 sinr) r

/-- A running `PopOutAnimation` with its shared target object and the
number of times the caller-supplied `on_complete` callback has been
invoked (the observable completion count). -/
structure PopOutRun where
  popout : PopOutAnimation
  target : TargetObj
  cb_calls : ℕ
deriving DecidableEq

/-- One event step of a `PopOutAnimation` run.  A fade tick runs
`_advance` with the fade `on_frame` and the `completion_wrapper`
installed by `create_animations`: the base `on_complete` (which sets
`animating = False`) followed by the caller's callback when present.
A scale tick uses the untouched base `on_complete`. -/
def PopOutRun.step (p2 sinr : ℚ → ℚ) (r : PopOutRun) (e : PopEvent) :
    PopOutRun :=
  match e with
  | .startEv now =>
      let s := r.popout.start now r.target
      ⟨s.1, s.2, r.cb_calls⟩
  | .fireFade tid =>
      match r.popout.fade_animation with
      | none => r
      | some f =>
          let s := fireWith
            (fun a (x : TargetObj × ℕ) =>
              (FadeAnimation.on_frame p2 sinr { f with toAnimationState := a }
                x.1, x.2))
            (fun a x =>
              ({ a with animating := false },
               (x.1, if r.popout.has_on_complete then x.2 + 1 else x.2)))
            tid f.toAnimationState (r.target, r.cb_calls)
          ⟨{ r.popout with
              fade_animation := some { f with toAnimationState := s.1 } },
           s.2.1, s.2.2⟩
  | .fireScale tid =>
      match r.popout.scale_animation with
      | none => r
      | some sc =>
          let s := ScaleAnimation.fire p2 sinr tid sc r.target
          ⟨{ r.popout with scale_animation := some s.1 }, s.2, r.cb_calls⟩

/-- A `PopOutAnimation` run over a list of events. -/
def PopOutRun.run (p2 sinr : ℚ → ℚ) (r : PopOutRun) (evs : List PopEvent) :
    PopOutRun :=
  evs.foldl (PopOutRun.step p2 sinr) r

/-- Overwrite only the (stored, never read) `easing` field of a pop-in
run. -/
def PopInRun.setEasing (e : String) (r : PopInRun) : PopInRun :=
  ⟨{ r.popin with easing := e }, r.target⟩

/-- Overwrite only the (stored, never read) `easing` field of a pop-out
run. -/
def PopOutRun.setEasing (e : String) (r : PopOutRun) : PopOutRun :=
  ⟨{ r.popout with easing := e }, r.target, r.cb_calls⟩

/-- The `easing` constructor argument of `PopInAnimation` is dead state:
every step commutes with overwriting it. -/
theorem popin_step_setEasing (p2 sinr : ℚ → ℚ) (e : String)
    (r : PopInRun) (ev : PopEvent) :
    PopInRun.step p2 sinr (r.setEasing e) ev =
      (PopInRun.step p2 sinr r ev).setEasing e := by
  cases ev with
  | startEv now =>
      cases hf : r.popin.fade_animation <;>
        cases hs : r.popin.scale_animation <;>
          simp [PopInRun.step, PopInRun.setEasing, PopInAnimation.start,
            PopInAnimation.create_animations, hf, hs]
  | fireFade tid =>
      cases hf : r.popin.fade_animation <;>
        simp [PopInRun.step, PopInRun.setEasing, hf]
  | fireScale tid =>
      cases hs : r.popin.scale_animation <;>
        simp [PopInRun.step, PopInRun.setEasing, hs]

/-- The `easing` constructor argument of `PopOutAnimation` is dead
state: every step commutes with overwriting it. -/
theorem popout_step_setEasing (p2 sinr : ℚ → ℚ) (e : String)
    (r : PopOutRun) (ev : PopEvent) :
    PopOutRun.step p2 sinr (r.setEasing e) ev =
      (PopOutRun.step p2 sinr r ev).setEasing e := by
  cases ev with
  | startEv now =>
      cases hf : r.popout.fade_animation <;>
        cases hs : r.popout.scale_animation <;>
          simp [PopOutRun.step, PopOutRun.setEasing, PopOutAnimation.start,
            PopOutAnimation.create_animations, hf, hs]
  | fireFade tid =>
      cases hf : r.popout.fade_animation <;>
        simp [PopOutRun.step, PopOutRun.setEasing, hf]
  | fireScale tid =>
      cases hs : r.popout.scale_animation <;>
        simp [PopOutRun.step, PopOutRun.setEasing, hs]

/-- Whole pop-in runs commute with overwriting the `easing` field. -/
theorem popin_run_setEasing (p2 sinr : ℚ → ℚ) (e : String)
    (r : PopInRun) (evs : List PopEvent) :
    PopInRun.run p2 sinr (r.setEasing e) evs =
      (PopInRun.run p2 sinr r evs).setEasing e := by
  induction evs generalizing r with
  | nil => rfl
  | cons ev rest ih =>
      simp only [PopInRun.run, List.foldl_cons] at ih ⊢
      rw [popin_step_setEasing, ih]

/-- Whole pop-out runs commute with overwriting the `easing` field. -/
theorem popout_run_setEasing (p2 sinr : ℚ → ℚ) (e : String)
    (r : PopOutRun) (evs : List PopEvent) :
    PopOutRun.run p2 sinr (r.setEasing e) evs =
      (PopOutRun.run p2 sinr r evs).setEasing e := by
  induction evs generalizing r with
  | nil => rfl
  | cons ev rest ih =>
      simp only [PopOutRun.run, List.foldl_cons] at ih ⊢
      rw [popout_step_setEasing, ih]

/-- C9: the `easing` constructor argument of `PopInAnimation` and
`PopOutAnimation` has no observable effect: for any two easing strings
and any event sequence, the write logs on the target are identical —
the child `FadeAnimation` always eases with the hard-coded
`"ease_out_quad"` and the child `ScaleAnimation` with the hard-coded
`"ease_out_elastic"`. -/
theorem pop_easing_argument_unused (p2 sinr : ℚ → ℚ)
    (op sp : String) (hc : Bool) (ss es d : ℚ) (e1 e2 : String)
    (t0 : TargetObj) (evs : List PopEvent) :
    (PopInRun.run p2 sinr ⟨PopInAnimation.make op sp ss es d e1, t0⟩
        evs).target.writes =
      (PopInRun.run p2 sinr ⟨PopInAnimation.make op sp ss es d e2, t0⟩
        evs).target.writes ∧
    (PopOutRun.run p2 sinr ⟨PopOutAnimation.make op sp hc ss es d e1, t0, 0⟩
        evs).target.writes =
      (PopOutRun.run p2 sinr ⟨PopOutAnimation.make op sp hc ss es d e2, t0, 0⟩
        evs).target.writes := by
  constructor
  · have h1 : (⟨PopInAnimation.make op sp ss es d e1, t0⟩ : PopInRun) =
        (⟨PopInAnimation.make op sp ss es d e2, t0⟩ : PopInRun).setEasing e1 :=
      rfl
    rw [h1, popin_run_setEasing]
    rfl
  · have h1 : (⟨PopOutAnimation.make op sp hc ss es d e1, t0, 0⟩ : PopOutRun) =
        (⟨PopOutAnimation.make op sp hc ss es d e2, t0, 0⟩ :
          PopOutRun).setEasing e1 := rfl
    rw [h1, popout_run_setEasing]
    rfl

/-- 1 if the pop-out's fade child exists and is animating (a completion
cycle is in flight), else 0. -/
def PopOutRun.fadeLive (r : PopOutRun) : ℕ :=
  match r.popout.fade_animation with
  | some f => if f.animating then 1 else 0
  | none => 0

/-- 1 for a `start()` event, 0 for a timer firing. -/
def stepStarts : PopEvent → ℕ
  | .startEv _ => 1
  | .fireFade _ => 0
  | .fireScale _ => 0

/-- Number of `start()` events in a trace. -/
def countStarts : List PopEvent → ℕ
  | [] => 0
  | e :: rest => stepStarts e + countStarts rest

/-- Key step invariant for C3: one event can increase the number of
caller-callback invocations only by retiring a live fade cycle, and
only a `start()` makes a cycle live, so `cb_calls + (live cycle)` grows
by at most the number of `start()` events. -/
theorem PopOutRun.step_cb_bound (p2 sinr : ℚ → ℚ) (r : PopOutRun)
    (e : PopEvent) :
    (PopOutRun.step p2 sinr r e).cb_calls +
        (PopOutRun.step p2 sinr r e).fadeLive ≤
      r.cb_calls + r.fadeLive + stepStarts e := by
  cases e with
  | startEv now =>
      cases hf : r.popout.fade_animation <;>
        cases hs : r.popout.scale_animation <;>
          simp [PopOutRun.step, PopOutRun.fadeLive, stepStarts,
            PopOutAnimation.start, PopOutAnimation.create_animations,
            FadeAnimation.start, AnimationState.start,
            AnimationState.schedule_next_frame, hf, hs]
  | fireFade tid =>
      cases hf : r.popout.fade_animation with
      | none => simp [PopOutRun.step, PopOutRun.fadeLive, stepStarts, hf]
      | some f =>
          simp only [PopOutRun.step, PopOutRun.fadeLive, stepStarts, hf,
            fireWith, advanceWith]
          split_ifs <;> simp_all [AnimationState.schedule_next_frame]
  | fireScale tid =>
      cases hs : r.popout.scale_animation <;>
        simp [PopOutRun.step, PopOutRun.fadeLive, stepStarts, hs]

/-- Trace-level bound: along any event trace, the caller callback fires
at most once per `start()`-opened cycle. -/
theorem PopOutRun.run_cb_bound (p2 sinr : ℚ → ℚ) (r : PopOutRun)
    (evs : List PopEvent) :
    (PopOutRun.run p2 sinr r evs).cb_calls +
        (PopOutRun.run p2 sinr r evs).fadeLive ≤
      r.cb_calls + r.fadeLive + countStarts evs := by
  induction evs generalizing r with
  | nil => simp [PopOutRun.run, countStarts]
  | cons e rest ih =>
      have h1 := PopOutRun.step_cb_bound p2 sinr r e
      have h2 := ih (PopOutRun.step p2 sinr r e)
      simp only [PopOutRun.run, List.foldl_cons, countStarts] at h2 ⊢
      omega

/-- The double-start scenario of C3: `start()`, three fade ticks and
two scale ticks of the first cycle, a second `start()` before the
first cycle finished, then every remaining timer fires (the superseded
first-cycle timers included) until both children complete, and one
final leftover fade timer fires after completion. -/
def popOutDoubleStartTrace : List PopEvent :=
  [.startEv 0, .fireFade 0, .fireFade 1, .fireFade 2, .fireScale 0,
   .fireScale 1, .startEv 1, .fireFade 3, .fireFade 4, .fireFade 5,
   .fireFade 6, .fireFade 7, .fireFade 8, .fireFade 9, .fireFade 10,
   .fireFade 11, .fireFade 12, .fireScale 2, .fireScale 3, .fireScale 4,
   .fireScale 5, .fireScale 6, .fireScale 7, .fireScale 8, .fireScale 9,
   .fireScale 10, .fireScale 11, .fireScale 12, .fireFade 13]

/-- The double-start scenario run: a `PopOutAnimation` with a
caller-supplied `on_complete`, default geometry (`start_scale=1.0`,
`end_scale=0.9`, `duration=0.25`, `easing='ease_in_quad'`) on a target
with `opacity` and `scale` attributes. -/
def popOutDoubleStartRun : PopOutRun :=
  PopOutRun.run (fun _ => 0) (fun _ => 0)
    ⟨PopOutAnimation.make "opacity" "scale" true 1 0.9 0.25 "ease_in_quad",
     ⟨[("opacity", 1), ("scale", 1)], []⟩, 0⟩ popOutDoubleStartTrace

set_option maxHeartbeats 4000000 in
/-- C3: a `PopOutAnimation` with a caller-supplied `on_complete`
invokes it exactly once per start-to-completion cycle.  In general, on
any event trace from a fresh `PopOutAnimation` the callback count never
exceeds the number of `start()` calls (wrappers do not stack, and a
completed cycle cannot fire the callback again).  In the concrete
double-start scenario — `start()` called a second time before the first
cycle finished, after which the merged cycle runs to completion and a
leftover superseded timer still fires — the callback runs exactly
once. -/
theorem popout_on_complete_once (p2 sinr : ℚ → ℚ) (op sp : String)
    (hc : Bool) (ss es d : ℚ) (e : String) (t0 : TargetObj)
    (evs : List PopEvent) :
    (PopOutRun.run p2 sinr
        ⟨PopOutAnimation.make op sp hc ss es d e, t0, 0⟩ evs).cb_calls ≤
      countStarts evs ∧
    popOutDoubleStartRun.cb_calls = 1 := by
  constructor
  · have h := PopOutRun.run_cb_bound p2 sinr
      ⟨PopOutAnimation.make op sp hc ss es d e, t0, 0⟩ evs
    have h0 : (⟨PopOutAnimation.make op sp hc ss es d e, t0, 0⟩ :
        PopOutRun).fadeLive = 0 := rfl
    rw [h0] at h
    calc (PopOutRun.run p2 sinr
            ⟨PopOutAnimation.make op sp hc ss es d e, t0, 0⟩ evs).cb_calls
        ≤ (PopOutRun.run p2 sinr
            ⟨PopOutAnimation.make op sp hc ss es d e, t0, 0⟩ evs).cb_calls +
          (PopOutRun.run p2 sinr
            ⟨PopOutAnimation.make op sp hc ss es d e, t0, 0⟩ evs).fadeLive :=
          Nat.le_add_right _ _
      _ ≤ 0 + 0 + countStarts evs := h
      _ = countStarts evs := by omega
  · norm_num +decide [popOutDoubleStartRun, popOutDoubleStartTrace,
      PopOutRun.run, PopOutRun.step, PopOutAnimation.make,
      PopOutAnimation.start, PopOutAnimation.create_animations,
      FadeAnimation.make, FadeAnimation.start, FadeAnimation.on_frame,
      ScaleAnimation.make, ScaleAnimation.start, ScaleAnimation.fire,
      ScaleAnimation.on_frame, AnimationState.start, AnimationState.init,
      AnimationState.schedule_next_frame, fireWith, advanceWith,
      AnimationState.get_eased_progress, AnimationState.get_progress,
      easedProgressFrom, TargetObj.hasattr, TargetObj.setattr,
      TargetObj.getattr, defaultOnComplete, dictGet, dictSet, List.foldl]

/-- An entry of the `micro_animations` manager registry: either a ready
animation instance (toggle instances are `FadeAnimation`s) or one of
the two toggle factory lambdas registered by `register_animations`
(src/micro_animations.py, lines 37-59).  The other recipe factories
(button press, panel focus, pulse, tab flash) are orthogonal to the
toggle claim and not modelled. -/
inductive ManagerEntry where
  | instFade (f : FadeAnimation)
  | factoryToggleOn
  | factoryToggleOff
deriving DecidableEq

/-- The manager registry as used by `MicroAnimations`. -/
structure MicroManager where
  animations : List (String × ManagerEntry)
deriving DecidableEq

/-- The registry right after `MicroAnimations.register_animations`:
`"toggle_on"` maps to the factory building
`FadeAnimation(obj, "highlight", 0.0, 1.0)` and `"toggle_off"` to the
factory building `FadeAnimation(obj, "highlight", 1.0, 0.0)`. -/
def MicroManager.registered : MicroManager :=
  ⟨[("toggle_on", .factoryToggleOn), ("toggle_off", .factoryToggleOff)]⟩

/-- Applying a factory entry to a target object (the object only fixes
the external target reference, which lives outside the instance). -/
def ManagerEntry.applyFactory : ManagerEntry → Option FadeAnimation
  | .factoryToggleOn => some (FadeAnimation.make "highlight" 0 1)
  | .factoryToggleOff => some (FadeAnimation.make "highlight" 1 0)
  | .instFade _ => none

/-- Python `AnimationManager.start_animation` as reached through the recipes:
looks the key up and calls `start()` on the registered instance.  The
recipes only ever start keys that hold instances, so factory entries
are left untouched. -/
def MicroManager.start_animation (now : ℚ) (m : MicroManager)
    (name : String) : MicroManager :=
  match dictGet m.animations name with
  | some (.instFade f) =>
      ⟨dictSet m.animations name (.instFade (f.start now))⟩
  | _ => m

/-- Python `MicroAnimations.animate_toggle` (src/micro_animations.py, lines
138-149): the registry key is derived from the target identity only
(`f"toggle_{id(toggle_obj)}"`); the `state` argument selects which
factory (`"toggle_on"`/`"toggle_off"`) builds the instance, but only
when the key is not yet registered; finally the instance under the key
is started. -/
def MicroAnimations.animate_toggle (now : ℚ) (m : MicroManager)
    (objId : ℕ) (state : Bool) : MicroManager :=
  let animation_name := "toggle_" ++ toString objId
  let base_animation := if state then "toggle_on" else "toggle_off"
  let m' :=
    if (dictGet m.animations animation_name).isSome then m
    else
      match dictGet m.animations base_animation with
      | some entry =>
          match entry.applyFactory with
          | some f => ⟨dictSet m.animations animation_name (.instFade f)⟩
          | none => m
      | none => m
  MicroManager.start_animation now m' animation_name

/-- The interpolation parameters of the toggle instance registered for
a given target identity, if any. -/
def toggleParams (m : MicroManager) (objId : ℕ) : Option (ℚ × ℚ) :=
  match dictGet m.animations ("toggle_" ++ toString objId) with
  | some (.instFade f) => some (f.start_value, f.end_value)
  | _ => none

/-- Whether the toggle instance registered for a given target identity
is animating, if any. -/
def toggleAnimating (m : MicroManager) (objId : ℕ) : Option Bool :=
  match dictGet m.animations ("toggle_" ++ toString objId) with
  | some (.instFade f) => some f.animating
  | _ => none

/-- Looking a key up right after writing it. -/
theorem dictGet_dictSet_self {α : Type} (d : List (String × α)) (k : String)
    (v : α) : dictGet (dictSet d k v) k = some v := by
  induction d with
  | nil => simp [dictSet, dictGet]
  | cons kv rest ih =>
      by_cases h : kv.1 = k <;> simp [dictSet, dictGet, h, ih]

/-- When its key is already registered, `animate_toggle` ignores the
`state` argument entirely: it just restarts the stored instance. -/
theorem animate_toggle_existing (now : ℚ) (m : MicroManager) (objId : ℕ)
    (b : Bool) (f : FadeAnimation)
    (h : dictGet m.animations ("toggle_" ++ toString objId) =
      some (.instFade f)) :
    MicroAnimations.animate_toggle now m objId b =
      ⟨dictSet m.animations ("toggle_" ++ toString objId)
        (.instFade (f.start now))⟩ := by
  unfold MicroAnimations.animate_toggle MicroManager.start_animation
  simp [h]

/-- Any further `animate_toggle` calls — whatever their `state`
arguments — keep the originally created instance under the key, with
its interpolation parameters intact, merely restarting it. -/
theorem animate_toggle_fold_preserves (now : ℚ) (objId : ℕ)
    (bs : List Bool) (m : MicroManager) (f : FadeAnimation)
    (h : dictGet m.animations ("toggle_" ++ toString objId) =
      some (.instFade f))
    (ha : f.animating = true) :
    ∃ g : FadeAnimation,
      dictGet (bs.foldl
          (fun m' b => MicroAnimations.animate_toggle now m' objId b)
          m).animations ("toggle_" ++ toString objId) =
        some (.instFade g) ∧
      g.start_value = f.start_value ∧ g.end_value = f.end_value ∧
      g.animating = true := by
  induction bs generalizing m f with
  | nil => exact ⟨f, h, rfl, rfl, ha⟩
  | cons b rest ih =>
      simp only [List.foldl_cons]
      rw [animate_toggle_existing now m objId b f h]
      have h2 := dictGet_dictSet_self m.animations
        ("toggle_" ++ toString objId)
        (ManagerEntry.instFade (f.start now))
      have ha2 : (f.start now).animating = true := by
        simp [FadeAnimation.start, AnimationState.start,
          AnimationState.schedule_next_frame]
      obtain ⟨g, hg, hg1, hg2, hg3⟩ := ih ⟨dictSet m.animations
        ("toggle_" ++ toString objId)
        (ManagerEntry.instFade (f.start now))⟩ (f.start now) h2 ha2
      exact ⟨g, hg, hg1, hg2, hg3⟩

/-- C10: `animate_toggle` keys the registry on the target identity
only.  Starting from the freshly registered manager, the first call
for a target (with any `state` argument `b1`) creates the instance
from the factory that `b1` selects — highlight `0.0 → 1.0` when
`b1 = true`, `1.0 → 0.0` when `b1 = false` — and every later call for
the same target, whatever its `state` argument, reuses and restarts
exactly that instance: the stored interpolation parameters still come
from `b1` alone, so a `1.0 → 0.0` fade is never created for an object
first animated with `state = true`. -/
theorem animate_toggle_keyed_by_identity (now : ℚ) (objId : ℕ) (b1 : Bool)
    (bs : List Bool)
    (hfresh : dictGet MicroManager.registered.animations
      ("toggle_" ++ toString objId) = none) :
    toggleParams
        (bs.foldl (fun m' b => MicroAnimations.animate_toggle now m' objId b)
          (MicroAnimations.animate_toggle now MicroManager.registered objId
            b1)) objId =
      some (if b1 then ((0 : ℚ), (1 : ℚ)) else ((1 : ℚ), (0 : ℚ))) ∧
    toggleAnimating
        (bs.foldl (fun m' b => MicroAnimations.animate_toggle now m' objId b)
          (MicroAnimations.animate_toggle now MicroManager.registered objId
            b1)) objId =
      some true := by
  have h1 : MicroAnimations.animate_toggle now MicroManager.registered objId
      b1 =
      ⟨dictSet (dictSet MicroManager.registered.animations
          ("toggle_" ++ toString objId)
          (.instFade (FadeAnimation.make "highlight"
            (if b1 then 0 else 1) (if b1 then 1 else 0))))
        ("toggle_" ++ toString objId)
        (.instFade ((FadeAnimation.make "highlight"
            (if b1 then 0 else 1) (if b1 then 1 else 0)).start now))⟩ := by
    have hon : ("toggle_on" : String) ≠ "toggle_" ++ toString objId := by
      intro hh
      simp [MicroManager.registered, dictGet, ← hh] at hfresh
    have hoff : ("toggle_off" : String) ≠ "toggle_" ++ toString objId := by
      intro hh
      simp [MicroManager.registered, dictGet, ← hh] at hfresh
    unfold MicroAnimations.animate_toggle MicroManager.start_animation
    cases b1 <;>
      simp [hfresh, hon, hoff, MicroManager.registered, dictGet, dictSet,
        ManagerEntry.applyFactory, dictGet_dictSet_self]
  rw [h1]
  have h2 := dictGet_dictSet_self (dictSet MicroManager.registered.animations
      ("toggle_" ++ toString objId)
      (ManagerEntry.instFade (FadeAnimation.make "highlight"
        (if b1 then 0 else 1) (if b1 then 1 else 0))))
    ("toggle_" ++ toString objId)
    (ManagerEntry.instFade ((FadeAnimation.make "highlight"
        (if b1 then 0 else 1) (if b1 then 1 else 0)).start now))
  have ha2 : ((FadeAnimation.make "highlight"
      (if b1 then 0 else 1) (if b1 then 1 else 0)).start now).animating
      = true := by
    simp [FadeAnimation.start, AnimationState.start,
      AnimationState.schedule_next_frame]
  obtain ⟨g, hg, hg1, hg2, hg3⟩ := animate_toggle_fold_preserves now objId bs
    _ _ h2 ha2
  constructor
  · unfold toggleParams
    rw [hg]
    cases b1 <;> simp_all [FadeAnimation.start, FadeAnimation.make]
  · unfold toggleAnimating
    rw [hg]
    simp [hg3]

/-- Witness for `animate_toggle_keyed_by_identity` at target identity
`7`, first call with `state = true`, then two calls with
`state = false`: the stored instance still fades `0 → 1`. -/
theorem animate_toggle_keyed_by_identity_witness :
    toggleParams
        ([false, false].foldl
          (fun m' b => MicroAnimations.animate_toggle 0 m' 7 b)
          (MicroAnimations.animate_toggle 0 MicroManager.registered 7 true))
        7 =
      some (if true then ((0 : ℚ), (1 : ℚ)) else ((1 : ℚ), (0 : ℚ))) ∧
    toggleAnimating
        ([false, false].foldl
          (fun m' b => MicroAnimations.animate_toggle 0 m' 7 b)
          (MicroAnimations.animate_toggle 0 MicroManager.registered 7 true))
        7 =
      some true :=
  animate_toggle_keyed_by_identity 0 7 true [false, false]
    (by decide)
